import Mathlib

/-!
Shallow embedding of the TruthSeeker verification gate
(`src/agents/verification/agent.py`): the six check runners, the
scheduler/aggregator `execute`, and the reduced `verify_quick` entry point.

External effects (subprocess invocations, file-system probes, the LLM
reviewer call and wall-clock measurement) are modelled as explicit
parameters: a `ProcOutcome` describes what one external process invocation
did, `existsF` is the file-existence predicate of the project root, and
`elapsed` is the measured elapsed time in milliseconds for the non-timeout
paths (the code records `int((perf_counter() - start) * 1000)`).
-/

/-- Modelled from the spec: `CheckResult` is declared in `src/core/models.py`
per the imports in `agent.py`, but that class is absent from the sources;
shape per spec §3 (`CheckOutcome`), with `duration_ms` defaulting to 0 as the
repository's own test `test_check_result_failed` asserts. -/
structure CheckResult where
  name : String
  passed : Bool
  details : String
  duration_ms : Nat := 0
  deriving Repr, DecidableEq

/-- Modelled from the spec: status enum `{PASS, WARN, FAIL}` (§3), absent from
`src/core/models.py`. -/
inductive VerificationStatus where
  | PASS
  | WARN
  | FAIL
  deriving Repr, DecidableEq

/-- Modelled from the spec: recommendation enum `{PROCEED, RETRY, ESCALATE}`
(§3), absent from `src/core/models.py`. -/
inductive VerificationRecommendation where
  | PROCEED
  | RETRY
  | ESCALATE
  deriving Repr, DecidableEq

/-- Modelled from the spec: `VerificationResult` output shape (§3), absent
from `src/core/models.py`. `checks` is an insertion-ordered association list,
mirroring the Python `dict[str, CheckResult]`; `overall_confidence` is the
exact rational value of the weighted quotient. -/
structure VerificationResult where
  task_id : String
  status : VerificationStatus
  checks : List (String × CheckResult)
  overall_confidence : ℚ
  recommendation : VerificationRecommendation
  errors : List String
  warnings : List String
  deriving Repr, DecidableEq

/-- `TaskResult` dataclass (agent.py lines 22-29). -/
structure TaskResult where
  task_id : String
  files_modified : List String
  success : Bool
  output : String := ""
  error : Option String := none
  deriving Repr, DecidableEq

/-- Outcome of one external process invocation, as `subprocess.run` surfaces
it to the agent: normal completion with an exit code and captured text,
`subprocess.TimeoutExpired`, `FileNotFoundError` (tool binary absent), or any
other exception (carrying its `str(e)` text). -/
inductive ProcOutcome (α : Type) where
  | completed (returncode : Int) (captured : α)
  | timeoutExpired
  | fileNotFoundError
  | otherError (msg : String)
  deriving Repr, DecidableEq

/-- Membership of a character list as a contiguous run of another, decidable
by scanning: embedding of Python's `in` on strings. -/
def listInfix (needle : List Char) : List Char → Bool
  | [] => needle.isEmpty
  | c :: t => needle.isPrefixOf (c :: t) || listInfix needle t

/-- Python `needle in hay` for strings. -/
def strContains (hay needle : String) : Bool :=
  listInfix needle.data hay.data

/-- Python `s.endswith(suffix)`. -/
def strEndsWith (s suffix : String) : Bool :=
  suffix.data.isSuffixOf s.data

/-- Python `s.startswith(pre)`. -/
def strStartsWith (s pre : String) : Bool :=
  pre.data.isPrefixOf s.data

/-- Leftmost non-overlapping split of a character list on a nonempty
separator; the fuel argument only bounds the recursion and is always
sufficient at the call site. -/
def splitCharsAux (sep : List Char) : Nat → List Char → List Char → List (List Char)
  | _, [], acc => [acc.reverse]
  | 0, l, acc => [acc.reverse ++ l]
  | fuel + 1, c :: t, acc =>
      if sep.isPrefixOf (c :: t) then
        acc.reverse :: splitCharsAux sep fuel (List.drop sep.length (c :: t)) []
      else
        splitCharsAux sep fuel t (acc ++ [c])

/-- Python `s.split(sep)` for a nonempty separator (every separator used by
the agent is a literal nonempty string). -/
def strSplitOn (s sep : String) : List String :=
  if sep.data.isEmpty then [s]
  else (splitCharsAux sep.data (s.data.length + 1) s.data []).map (fun cs => ⟨cs⟩)

/-- One file's contribution to the error list of the syntax check
(`_check_syntax` loop body, agent.py lines 169-188): `none` when the
invocation reported a clean exit. -/
def syntaxFileError (file_path : String) (p : ProcOutcome String) : Option String :=
  match p with
  | .completed rc stderr =>
      if rc ≠ 0 then
        let error_msg := stderr.trim
        if strContains error_msg "SyntaxError" then
          some (file_path ++ ": " ++ ((strSplitOn error_msg "SyntaxError:").getLastD "").trim)
        else
          some (file_path ++ ": " ++ error_msg)
      else none
  | .timeoutExpired => some (file_path ++ ": Syntax check timeout")
  | .fileNotFoundError => some (file_path ++ ": python not found")
  | .otherError msg => some (file_path ++ ": " ++ msg)

/-- `_check_syntax` (agent.py lines 154-196): per-file invocation of
`py_compile`; nonexistent files are skipped; passes iff no file reported an
error; the recorded duration is the measured elapsed time. -/
def syntaxCheck (files : List String) (existsF : String → Bool)
    (procF : String → ProcOutcome String) (elapsed : Nat) : CheckResult :=
  let python_files := files.filter (fun f => strEndsWith f ".py")
  if python_files.isEmpty then
    { name := "syntax", passed := true, details := "No Python files", duration_ms := 0 }
  else
    let errors := (python_files.filter existsF).filterMap
      (fun f => syntaxFileError f (procF f))
    { name := "syntax"
      passed := errors.isEmpty
      details := if errors.isEmpty then
          "All " ++ toString python_files.length ++ " files valid"
        else String.intercalate "; " errors
      duration_ms := elapsed }

/-- `_check_types` (agent.py lines 198-247): one batched mypy invocation;
tool absence is a soft pass; a timeout records the 120 s ceiling. -/
def typesCheck (files : List String) (existsF : String → Bool)
    (proc : ProcOutcome String) (elapsed : Nat) : CheckResult :=
  let python_files := files.filter (fun f => strEndsWith f ".py")
  if python_files.isEmpty then
    { name := "types", passed := true, details := "No Python files", duration_ms := 0 }
  else
    let file_args := python_files.filter existsF
    if file_args.isEmpty then
      { name := "types", passed := true, details := "No files to check", duration_ms := 0 }
    else
      match proc with
      | .completed rc stdout =>
          if rc = 0 then
            { name := "types", passed := true, details := "No type errors", duration_ms := elapsed }
          else
            let error_lines := (strSplitOn stdout "\n").filter (fun l => strContains l "error:")
            let error_count := error_lines.length
            let first_errors := error_lines.take 3
            let details := if first_errors.isEmpty then
                toString error_count ++ " type errors"
              else
                toString error_count ++ " type errors. First: " ++
                  String.intercalate "; " first_errors
            { name := "types", passed := false, details := details.take 500,
              duration_ms := elapsed }
      | .timeoutExpired =>
          { name := "types", passed := false, details := "Type check timeout (>120s)",
            duration_ms := 120000 }
      | .fileNotFoundError =>
          { name := "types", passed := true, details := "mypy not installed (skipped)",
            duration_ms := 0 }
      | .otherError msg =>
          { name := "types", passed := false, details := msg.take 200,
            duration_ms := elapsed }

/-- `_check_lint` (agent.py lines 249-300): one batched ruff invocation;
tool absence is a soft pass; a timeout records the 60 s ceiling. -/
def lintCheck (files : List String) (existsF : String → Bool)
    (proc : ProcOutcome String) (elapsed : Nat) : CheckResult :=
  let python_files := files.filter (fun f => strEndsWith f ".py")
  if python_files.isEmpty then
    { name := "lint", passed := true, details := "No Python files", duration_ms := 0 }
  else
    let file_args := python_files.filter existsF
    if file_args.isEmpty then
      { name := "lint", passed := true, details := "No files to check", duration_ms := 0 }
    else
      match proc with
      | .completed rc stdout =>
          if rc = 0 then
            { name := "lint", passed := true, details := "No lint issues", duration_ms := elapsed }
          else
            let issues := (strSplitOn stdout "\n").filter (fun l => !(l.trim = ""))
            let issue_count := issues.length
            let errors := issues.filter (fun i => strContains i ":E" || strContains i ":F")
            let warnings := issues.filter (fun i => strContains i ":W")
            let base := toString issue_count ++ " issues (" ++ toString errors.length ++
              " errors, " ++ toString warnings.length ++ " warnings)"
            let details := if issues.isEmpty then base
              else base ++ ". First: " ++ (issues.headD "").take 100
            { name := "lint", passed := false, details := details, duration_ms := elapsed }
      | .timeoutExpired =>
          { name := "lint", passed := false, details := "Lint check timeout",
            duration_ms := 60000 }
      | .fileNotFoundError =>
          { name := "lint", passed := true, details := "ruff not installed (skipped)",
            duration_ms := 0 }
      | .otherError msg =>
          { name := "lint", passed := false, details := msg.take 200, duration_ms := elapsed }

/-- One entry of the `results` array of the bandit JSON report; Python reads
the keys with `.get`, so each is optional. -/
structure BanditIssue where
  issue_severity : Option String
  issue_text : Option String
  deriving Repr, DecidableEq

/-- What `json.loads` on the scanner's stdout yields inside
`_check_security`: either the `results` list extracted from the parsed
report (`report.get("results", [])`), or a `json.JSONDecodeError`. -/
inductive BanditOut where
  | report (results : List BanditIssue)
  | malformed
  deriving Repr, DecidableEq

/-- `_check_security` (agent.py lines 302-369): one batched bandit
invocation with JSON output at medium-and-above severity; passes iff zero
HIGH findings; unparseable output is a hard failure; tool absence is a soft
pass; a timeout records the 60 s ceiling. -/
def securityCheck (files : List String) (existsF : String → Bool)
    (proc : ProcOutcome BanditOut) (elapsed : Nat) : CheckResult :=
  let python_files := files.filter (fun f => strEndsWith f ".py")
  if python_files.isEmpty then
    { name := "security", passed := true, details := "No Python files", duration_ms := 0 }
  else
    let file_args := python_files.filter existsF
    if file_args.isEmpty then
      { name := "security", passed := true, details := "No files to check", duration_ms := 0 }
    else
      match proc with
      | .completed rc out =>
          if rc = 0 then
            { name := "security", passed := true, details := "No security issues",
              duration_ms := elapsed }
          else
            match out with
            | .report issues =>
                if issues.isEmpty then
                  { name := "security", passed := true, details := "No security issues",
                    duration_ms := elapsed }
                else
                  let high := issues.filter (fun i => i.issue_severity == some "HIGH")
                  let medium := issues.filter (fun i => i.issue_severity == some "MEDIUM")
                  let base := toString issues.length ++ " security issues (" ++
                    toString high.length ++ " high, " ++ toString medium.length ++ " medium)"
                  let details := if high.isEmpty then base
                    else base ++ ". HIGH: " ++
                      (((high.headD ⟨none, none⟩).issue_text).getD "Unknown").take 100
                  { name := "security", passed := high.isEmpty, details := details,
                    duration_ms := elapsed }
            | .malformed =>
                { name := "security", passed := false,
                  details := "Failed to parse bandit output", duration_ms := elapsed }
      | .timeoutExpired =>
          { name := "security", passed := false, details := "Security check timeout",
            duration_ms := 60000 }
      | .fileNotFoundError =>
          { name := "security", passed := true, details := "bandit not installed (skipped)",
            duration_ms := 0 }
      | .otherError msg =>
          { name := "security", passed := false, details := msg.take 200,
            duration_ms := elapsed }

/-- Path components, as `pathlib.Path.parts` sees a relative POSIX path
(empty and `.` segments vanish). -/
def pathParts (p : String) : List String :=
  (strSplitOn p "/").filter (fun s => !(s = "" || s = "."))

/-- Rejoin path components, as `str()` on a joined relative `Path`. -/
def partsToStr (parts : List String) : String :=
  String.intercalate "/" parts

/-- The fixed ordered list of conventional test-file locations probed for one
modified file (`_run_tests`, agent.py lines 383-388). -/
def testFileCandidates (file_path : String) : List String :=
  let parts := pathParts file_path
  let nm := parts.getLastD ""
  let parent := parts.dropLast
  [ partsToStr (parent ++ ["test_" ++ nm])
  , partsToStr ("tests" :: (parent ++ ["test_" ++ nm]))
  , partsToStr ["tests", "test_" ++ nm]
  , partsToStr (parent ++ ["tests", "test_" ++ nm]) ]

/-- Test-file discovery loop of `_run_tests` (agent.py lines 377-393): for
each modified `.py` file not itself test-prefixed, the first existing
candidate is taken; files with no match contribute nothing. -/
def discoverTests (files : List String) (existsF : String → Bool) : List String :=
  files.foldl
    (fun acc f =>
      if strEndsWith f ".py" && !(strStartsWith f "test_") then
        match (testFileCandidates f).find? existsF with
        | some t => acc ++ [t]
        | none => acc
      else acc)
    []

/-- `_run_tests` (agent.py lines 371-432): one batched pytest invocation over
the discovered test files; passes trivially when none were found; tool
absence is a soft pass; a timeout records the 180 s ceiling. -/
def testsRun (files : List String) (existsF : String → Bool)
    (proc : ProcOutcome String) (elapsed : Nat) : CheckResult :=
  let test_files := discoverTests files existsF
  if test_files.isEmpty then
    { name := "tests", passed := true, details := "No related tests found", duration_ms := 0 }
  else
    match proc with
    | .completed rc stdout =>
        if rc = 0 then
          match (strSplitOn stdout "\n").find? (fun l => strContains l "passed") with
          | some line =>
              { name := "tests", passed := true, details := line.trim, duration_ms := elapsed }
          | none =>
              { name := "tests", passed := true, details := "All tests passed",
                duration_ms := elapsed }
        else
          match (strSplitOn stdout "\n").find?
              (fun l => strContains l.toLower "failed" || strContains l.toLower "error") with
          | some line =>
              { name := "tests", passed := false, details := (line.trim).take 200,
                duration_ms := elapsed }
          | none =>
              { name := "tests", passed := false, details := "Tests failed",
                duration_ms := elapsed }
    | .timeoutExpired =>
        { name := "tests", passed := false, details := "Test timeout (>180s)",
          duration_ms := 180000 }
    | .fileNotFoundError =>
        { name := "tests", passed := true, details := "pytest not installed (skipped)",
          duration_ms := 0 }
    | .otherError msg =>
        { name := "tests", passed := false, details := msg.take 200, duration_ms := elapsed }

/-- The structured reply of the pattern reviewer, read with `.get` defaults
(`_check_patterns`, agent.py lines 485-487), so each key is optional. -/
structure LLMReply where
  passed : Option Bool
  issues : Option (List String)
  summary : Option String
  deriving Repr, DecidableEq

/-- Outcome of the `chat_json` call to the external reviewer: a parsed reply,
or any exception (carrying its text). -/
inductive LLMOutcome where
  | reply (r : LLMReply)
  | exn (msg : String)
  deriving Repr, DecidableEq

/-- `_check_patterns` (agent.py lines 434-498): reads up to 3 modified
Python files (each truncated to 300 lines) and asks the external reviewer;
`readF` combines the existence probe and `read_text` (`none` when either
skips the file); any reviewer failure degrades to a soft pass. -/
def patternsCheck (files : List String) (readF : String → Option String)
    (llm : LLMOutcome) (elapsed : Nat) : CheckResult :=
  let python_files := files.filter (fun f => strEndsWith f ".py")
  if python_files.isEmpty then
    { name := "patterns", passed := true, details := "No Python files", duration_ms := 0 }
  else
    let code_snippets := (python_files.take 3).filterMap
      (fun f => (readF f).map
        (fun content =>
          "# File: " ++ f ++ "\n" ++
            String.intercalate "\n" ((strSplitOn content "\n").take 300)))
    if code_snippets.isEmpty then
      { name := "patterns", passed := true, details := "No readable files", duration_ms := 0 }
    else
      match llm with
      | .reply r =>
          let passed := r.passed.getD true
          let issues := r.issues.getD []
          let summary := r.summary.getD "Pattern check complete"
          let details := if !passed && !issues.isEmpty then
              summary ++ ". Issues: " ++ String.intercalate "; " (issues.take 3)
            else summary
          { name := "patterns", passed := passed, details := details.take 300,
            duration_ms := elapsed }
      | .exn msg =>
          { name := "patterns", passed := true,
            details := "LLM review skipped: " ++ msg.take 100, duration_ms := elapsed }

/-- Outcome of one of the four parallel check tasks as surfaced by
`asyncio.gather(..., return_exceptions=True)`: either the `CheckResult` the
check returned, or an exception object (carrying its `str`). -/
inductive GatherOutcome where
  | ok (r : CheckResult)
  | exn (msg : String)
  deriving Repr, DecidableEq

/-- The state of the external world for one gate run: what each of the six
check coroutines would produce if invoked on the task's files. -/
structure ToolEnv where
  syntaxRes : GatherOutcome
  typesRes : GatherOutcome
  lintRes : GatherOutcome
  securityRes : GatherOutcome
  testsRes : CheckResult
  patternsRes : CheckResult
  deriving Repr, DecidableEq

/-- The loop over `zip(check_names, parallel_checks)` (agent.py lines
80-84): an exception becomes a failing `CheckResult` for that check alone. -/
def resolveGather (nm : String) (g : GatherOutcome) : CheckResult :=
  match g with
  | .ok r => r
  | .exn msg => { name := nm, passed := false, details := msg }

/-- The resolved syntax entry of `checks`. -/
def csyntaxOf (env : ToolEnv) : CheckResult := resolveGather "syntax" env.syntaxRes

/-- The resolved types entry of `checks`. -/
def ctypesOf (env : ToolEnv) : CheckResult := resolveGather "types" env.typesRes

/-- The resolved lint entry of `checks`. -/
def clintOf (env : ToolEnv) : CheckResult := resolveGather "lint" env.lintRes

/-- The resolved security entry of `checks`. -/
def csecurityOf (env : ToolEnv) : CheckResult := resolveGather "security" env.securityRes

/-- The tests entry of `checks` (agent.py lines 87-91): either the result of
`_run_tests`, or the skipped failing outcome when the syntax check failed. -/
def ctestsOf (env : ToolEnv) : CheckResult :=
  if (csyntaxOf env).passed then env.testsRes
  else { name := "tests", passed := false, details := "Skipped due to syntax errors" }

/-- The patterns entry of `checks` (agent.py lines 87-92). -/
def cpatternsOf (env : ToolEnv) : CheckResult :=
  if (csyntaxOf env).passed then env.patternsRes
  else { name := "patterns", passed := false, details := "Skipped due to syntax errors" }

/-- The completed 6-entry `checks` mapping, in insertion order. -/
def checksOf (env : ToolEnv) : List (String × CheckResult) :=
  [ ("syntax", csyntaxOf env), ("types", ctypesOf env), ("lint", clintOf env)
  , ("security", csecurityOf env), ("tests", ctestsOf env), ("patterns", cpatternsOf env) ]

/-- The `errors` list (agent.py lines 95-100): the loop over
`critical_checks = ["syntax", "types"]`, unrolled. -/
def errorsOf (env : ToolEnv) : List String :=
  (if !(csyntaxOf env).passed then ["syntax: " ++ (csyntaxOf env).details] else []) ++
  (if !(ctypesOf env).passed then ["types: " ++ (ctypesOf env).details] else [])

/-- The `warnings` list (agent.py lines 96-104): the loop over
`warning_checks = ["lint", "security", "tests", "patterns"]`, unrolled. -/
def warningsOf (env : ToolEnv) : List String :=
  (if !(clintOf env).passed then ["lint: " ++ (clintOf env).details] else []) ++
  (if !(csecurityOf env).passed then ["security: " ++ (csecurityOf env).details] else []) ++
  (if !(ctestsOf env).passed then ["tests: " ++ (ctestsOf env).details] else []) ++
  (if !(cpatternsOf env).passed then ["patterns: " ++ (cpatternsOf env).details] else [])

/-- Status and recommendation (agent.py lines 106-125). -/
def statusRecOf (env : ToolEnv) : VerificationStatus × VerificationRecommendation :=
  let critical_failed := !(csyntaxOf env).passed || !(ctypesOf env).passed
  let security_failed := !(csecurityOf env).passed
  let tests_failed := !(ctestsOf env).passed
  if critical_failed then (.FAIL, .RETRY)
  else if security_failed then (.FAIL, .ESCALATE)
  else if tests_failed then (.WARN, .RETRY)
  else if !(warningsOf env).isEmpty then (.WARN, .PROCEED)
  else (.PASS, .PROCEED)

/-- The fixed weight table (agent.py line 128); names outside the table do
not occur. -/
def checkWeight (nm : String) : Nat :=
  if nm = "syntax" then 2
  else if nm = "types" then 2
  else if nm = "lint" then 1
  else if nm = "security" then 2
  else if nm = "tests" then 2
  else if nm = "patterns" then 1
  else 0

/-- Weighted confidence (agent.py lines 127-131):
`sum(weights[name] for name, check in checks.items() if check.passed) / 10`,
as an exact rational. -/
def confidenceOf (env : ToolEnv) : ℚ :=
  let total_weight : Nat := 2 + 2 + 1 + 2 + 2 + 1
  let weighted_score : Nat :=
    ((checksOf env).filter (fun p => p.2.passed)).foldl (fun acc p => acc + checkWeight p.1) 0
  (weighted_score : ℚ) / (total_weight : ℚ)

/-- `execute` together with an invocation trace: `testsInvoked` and
`patternsInvoked` record whether `_run_tests` / `_check_patterns` were
actually awaited (they are exactly when the syntax outcome passed,
agent.py lines 87-92). -/
structure ExecTrace where
  result : VerificationResult
  testsInvoked : Bool
  patternsInvoked : Bool
  deriving Repr, DecidableEq

/-- `VerificationAgent.execute` (agent.py lines 50-152) as a function of the
input `TaskResult` and the tool environment. -/
def execute (input : TaskResult) (env : ToolEnv) : ExecTrace :=
  { result :=
      { task_id := input.task_id
        status := (statusRecOf env).1
        checks := checksOf env
        overall_confidence := confidenceOf env
        recommendation := (statusRecOf env).2
        errors := errorsOf env
        warnings := warningsOf env }
    testsInvoked := (csyntaxOf env).passed
    patternsInvoked := (csyntaxOf env).passed }

/-- Dictionary lookup `result.checks[name]` (total here: every name the code
looks up is present). -/
def checkOf (r : VerificationResult) (nm : String) : CheckResult :=
  ((r.checks.find? (fun p => p.1 == nm)).map Prod.snd).getD
    { name := nm, passed := false, details := "" }

/-- `verify_quick` with its invocation list: the `asyncio.gather` call at
agent.py lines 504-507 awaits exactly `_check_syntax` and `_check_lint`. -/
structure QuickTrace where
  result : CheckResult
  invoked : List String
  deriving Repr, DecidableEq

/-- `VerificationAgent.verify_quick` (agent.py lines 500-517), as a function
of the two check outcomes it gathers. -/
def verify_quick (syntaxR lintR : CheckResult) : QuickTrace :=
  let results := [syntaxR, lintR]
  let all_passed := results.all (fun r => r.passed)
  let details := String.intercalate "; "
    ((results.filter (fun r => !r.passed)).map (fun r => r.name ++ ": " ++ r.details))
  { result :=
      { name := "quick"
        passed := all_passed
        details := if details = "" then "All quick checks passed" else details
        duration_ms := (results.map (fun r => r.duration_ms)).foldl (· + ·) 0 }
    invoked := ["syntax", "lint"] }

/-- The spec's decision table (§4.3), written from its words for comparison
with the code's `statusRecOf`. -/
def specDecisionTable (syntaxPassed typesPassed lintPassed securityPassed
    testsPassed patternsPassed : Bool) :
    VerificationStatus × VerificationRecommendation :=
  if !syntaxPassed || !typesPassed then (.FAIL, .RETRY)
  else if !securityPassed then (.FAIL, .ESCALATE)
  else if !testsPassed then (.WARN, .RETRY)
  else if !lintPassed || !patternsPassed then (.WARN, .PROCEED)
  else (.PASS, .PROCEED)

/-- The spec's weighted sum of passing checks (§4.3), written from its words:
syntax=2, types=2, lint=1, security=2, tests=2, patterns=1. -/
def specWeightedSum (syntaxPassed typesPassed lintPassed securityPassed
    testsPassed patternsPassed : Bool) : Nat :=
  (if syntaxPassed then 2 else 0) + (if typesPassed then 2 else 0) +
  (if lintPassed then 1 else 0) + (if securityPassed then 2 else 0) +
  (if testsPassed then 2 else 0) + (if patternsPassed then 1 else 0)

theorem checkOf_execute_syntax (input : TaskResult) (env : ToolEnv) :
    checkOf (execute input env).result "syntax" = csyntaxOf env := rfl

theorem checkOf_execute_types (input : TaskResult) (env : ToolEnv) :
    checkOf (execute input env).result "types" = ctypesOf env := rfl

theorem checkOf_execute_lint (input : TaskResult) (env : ToolEnv) :
    checkOf (execute input env).result "lint" = clintOf env := rfl

theorem checkOf_execute_security (input : TaskResult) (env : ToolEnv) :
    checkOf (execute input env).result "security" = csecurityOf env := rfl

theorem checkOf_execute_tests (input : TaskResult) (env : ToolEnv) :
    checkOf (execute input env).result "tests" = ctestsOf env := rfl

theorem checkOf_execute_patterns (input : TaskResult) (env : ToolEnv) :
    checkOf (execute input env).result "patterns" = cpatternsOf env := rfl

theorem statusRecOf_eq_spec (env : ToolEnv) :
    statusRecOf env =
      specDecisionTable (csyntaxOf env).passed (ctypesOf env).passed
        (clintOf env).passed (csecurityOf env).passed
        (ctestsOf env).passed (cpatternsOf env).passed := by
  unfold statusRecOf specDecisionTable
  cases hl : (clintOf env).passed <;> cases hsec : (csecurityOf env).passed <;>
    cases ht : (ctestsOf env).passed <;> cases hp : (cpatternsOf env).passed <;>
    cases hsy : (csyntaxOf env).passed <;> cases hty : (ctypesOf env).passed <;>
    simp [warningsOf, hl, hsec, ht, hp, hsy, hty]

/-- C1: for every completed run of the gate, the status and recommendation
are exactly the spec's five-row priority table applied to the six check
outcomes recorded in the result. -/
theorem C1_decision_table (input : TaskResult) (env : ToolEnv) :
    (execute input env).result.status =
      (specDecisionTable
        (checkOf (execute input env).result "syntax").passed
        (checkOf (execute input env).result "types").passed
        (checkOf (execute input env).result "lint").passed
        (checkOf (execute input env).result "security").passed
        (checkOf (execute input env).result "tests").passed
        (checkOf (execute input env).result "patterns").passed).1 ∧
    (execute input env).result.recommendation =
      (specDecisionTable
        (checkOf (execute input env).result "syntax").passed
        (checkOf (execute input env).result "types").passed
        (checkOf (execute input env).result "lint").passed
        (checkOf (execute input env).result "security").passed
        (checkOf (execute input env).result "tests").passed
        (checkOf (execute input env).result "patterns").passed).2 := by
  have h := statusRecOf_eq_spec env
  exact ⟨congrArg Prod.fst h, congrArg Prod.snd h⟩

/-- C2: for every input and every combination of individual check outcomes
(exceptions included), the `checks` mapping of the produced result has
exactly the six keys syntax, types, lint, security, tests, patterns, in
insertion order — never more, never fewer. -/
theorem C2_checks_keys (input : TaskResult) (env : ToolEnv) :
    ((execute input env).result.checks).map Prod.fst =
      ["syntax", "types", "lint", "security", "tests", "patterns"] := rfl

/-- The security outcome `_check_security` produces when the bandit
invocation times out: failing, with no findings involved at all. -/
def secTimeoutOutcome : CheckResult :=
  securityCheck ["app.py"] (fun _ => true) ProcOutcome.timeoutExpired 0

/-- A run whose four parallel checks completed normally, with syntax, types
and lint clean and the security scanner timing out. -/
def envSecTimeout : ToolEnv :=
  { syntaxRes := .ok { name := "syntax", passed := true, details := "All 1 files valid", duration_ms := 5 }
    typesRes := .ok { name := "types", passed := true, details := "No type errors", duration_ms := 5 }
    lintRes := .ok { name := "lint", passed := true, details := "No lint issues", duration_ms := 5 }
    securityRes := .ok secTimeoutOutcome
    testsRes := { name := "tests", passed := true, details := "No related tests found", duration_ms := 0 }
    patternsRes := { name := "patterns", passed := true, details := "Pattern check complete", duration_ms := 5 } }

/-- The task fed to the gate in the security-timeout run. -/
def taskSecTimeout : TaskResult :=
  { task_id := "t-sec", files_modified := ["app.py"], success := true }

/-- C3 counterexample: a security outcome that failed because the scanner
timed out (zero HIGH findings — no findings were parsed at all) does make
the status FAIL, contradicting the claim's "does not make the status FAIL":
here syntax and types passed, the security check failed only by timeout, and
the gate still reports FAIL. -/
theorem C3_counterexample :
    secTimeoutOutcome =
      { name := "security", passed := false, details := "Security check timeout",
        duration_ms := 60000 } ∧
    (checkOf (execute taskSecTimeout envSecTimeout).result "syntax").passed = true ∧
    (checkOf (execute taskSecTimeout envSecTimeout).result "types").passed = true ∧
    (execute taskSecTimeout envSecTimeout).result.status = VerificationStatus.FAIL := by
  exact ⟨rfl, rfl, rfl, rfl⟩

/-- C3 (amended): status is FAIL iff a critical check (syntax or types)
failed or the security check's outcome failed — where the security outcome
fails not only on ≥1 HIGH finding but also on timeout, crash, or
unparseable scanner output. -/
theorem C3_amended_fail_iff (input : TaskResult) (env : ToolEnv) :
    ((execute input env).result.status = VerificationStatus.FAIL) ↔
      ((checkOf (execute input env).result "syntax").passed &&
       (checkOf (execute input env).result "types").passed &&
       (checkOf (execute input env).result "security").passed) = false := by
  show ((statusRecOf env).1 = VerificationStatus.FAIL) ↔
    ((csyntaxOf env).passed && (ctypesOf env).passed && (csecurityOf env).passed) = false
  unfold statusRecOf
  cases hsy : (csyntaxOf env).passed <;> cases hty : (ctypesOf env).passed <;>
    cases hsec : (csecurityOf env).passed <;>
    cases ht : (ctestsOf env).passed <;> cases hw : (warningsOf env).isEmpty <;>
    simp [hsy, hty, hsec, ht, hw]

/-- C3 amended-claim witness: the iff evaluated on the security-timeout run. -/
theorem C3_amended_witness :
    (execute taskSecTimeout envSecTimeout).result.status = VerificationStatus.FAIL := by
  exact (C3_amended_fail_iff taskSecTimeout envSecTimeout).mpr (by decide)

theorem specWeightedSum_le_ten (a b c d e f : Bool) :
    specWeightedSum a b c d e f ≤ 10 := by
  cases a <;> cases b <;> cases c <;> cases d <;> cases e <;> cases f <;> decide

theorem confidenceOf_eq_spec (env : ToolEnv) :
    confidenceOf env =
      (specWeightedSum (csyntaxOf env).passed (ctypesOf env).passed (clintOf env).passed
        (csecurityOf env).passed (ctestsOf env).passed (cpatternsOf env).passed : ℚ) / 10 := by
  unfold confidenceOf specWeightedSum checksOf
  cases hsy : (csyntaxOf env).passed <;> cases hty : (ctypesOf env).passed <;>
    cases hl : (clintOf env).passed <;> cases hsec : (csecurityOf env).passed <;>
    cases ht : (ctestsOf env).passed <;> cases hp : (cpatternsOf env).passed <;>
    simp [hsy, hty, hl, hsec, ht, hp, checkWeight]

/-- C4: overall confidence is exactly the sum of the fixed weights
(syntax=2, types=2, lint=1, security=2, tests=2, patterns=1) of the passing
checks divided by 10; it lies in [0,1], and equals 1 when all six checks
pass. -/
theorem C4_confidence (input : TaskResult) (env : ToolEnv) :
    (execute input env).result.overall_confidence =
      (specWeightedSum
        (checkOf (execute input env).result "syntax").passed
        (checkOf (execute input env).result "types").passed
        (checkOf (execute input env).result "lint").passed
        (checkOf (execute input env).result "security").passed
        (checkOf (execute input env).result "tests").passed
        (checkOf (execute input env).result "patterns").passed : ℚ) / 10 ∧
    0 ≤ (execute input env).result.overall_confidence ∧
    (execute input env).result.overall_confidence ≤ 1 ∧
    ((checkOf (execute input env).result "syntax").passed = true ∧
     (checkOf (execute input env).result "types").passed = true ∧
     (checkOf (execute input env).result "lint").passed = true ∧
     (checkOf (execute input env).result "security").passed = true ∧
     (checkOf (execute input env).result "tests").passed = true ∧
     (checkOf (execute input env).result "patterns").passed = true →
      (execute input env).result.overall_confidence = 1) := by
  have hc : (execute input env).result.overall_confidence = confidenceOf env := rfl
  have h := confidenceOf_eq_spec env
  refine ⟨h, ?_, ?_, ?_⟩
  · rw [hc, h]
    positivity
  · rw [hc, h]
    rw [div_le_one (by norm_num)]
    exact_mod_cast specWeightedSum_le_ten _ _ _ _ _ _
  · rintro ⟨h1, h2, h3, h4, h5, h6⟩
    rw [hc, h]
    rw [show (csyntaxOf env).passed = true from h1,
        show (ctypesOf env).passed = true from h2,
        show (clintOf env).passed = true from h3,
        show (csecurityOf env).passed = true from h4,
        show (ctestsOf env).passed = true from h5,
        show (cpatternsOf env).passed = true from h6]
    norm_num [specWeightedSum]

/-- A run in which all six checks pass. -/
def envAllPass : ToolEnv :=
  { syntaxRes := .ok { name := "syntax", passed := true, details := "All 1 files valid", duration_ms := 3 }
    typesRes := .ok { name := "types", passed := true, details := "No type errors", duration_ms := 4 }
    lintRes := .ok { name := "lint", passed := true, details := "No lint issues", duration_ms := 2 }
    securityRes := .ok { name := "security", passed := true, details := "No security issues", duration_ms := 6 }
    testsRes := { name := "tests", passed := true, details := "No related tests found", duration_ms := 0 }
    patternsRes := { name := "patterns", passed := true, details := "Pattern check complete", duration_ms := 2 } }

/-- The task fed to the gate in the all-pass run. -/
def taskAllPass : TaskResult :=
  { task_id := "t-ok", files_modified := ["app.py"], success := true }

/-- C4 witness: on a run where all six checks pass, the confidence is
exactly 1. -/
theorem C4_confidence_witness :
    (execute taskAllPass envAllPass).result.overall_confidence = 1 := by
  exact (C4_confidence taskAllPass envAllPass).2.2.2 ⟨rfl, rfl, rfl, rfl, rfl, rfl⟩

/-- C5: whenever the syntax check's outcome failed, `_run_tests` and
`_check_patterns` are not invoked at all, both entries are failing outcomes
with details exactly "Skipped due to syntax errors" and zero duration, and
the overall result is FAIL with recommendation RETRY. -/
theorem C5_skip_on_syntax_failure (input : TaskResult) (env : ToolEnv)
    (h : (checkOf (execute input env).result "syntax").passed = false) :
    (execute input env).testsInvoked = false ∧
    (execute input env).patternsInvoked = false ∧
    checkOf (execute input env).result "tests" =
      { name := "tests", passed := false, details := "Skipped due to syntax errors",
        duration_ms := 0 } ∧
    checkOf (execute input env).result "patterns" =
      { name := "patterns", passed := false, details := "Skipped due to syntax errors",
        duration_ms := 0 } ∧
    (execute input env).result.status = VerificationStatus.FAIL ∧
    (execute input env).result.recommendation = VerificationRecommendation.RETRY := by
  have hs : (csyntaxOf env).passed = false := h
  refine ⟨hs, hs, ?_, ?_, ?_, ?_⟩
  · show ctestsOf env = _
    unfold ctestsOf
    rw [hs]
    simp
  · show cpatternsOf env = _
    unfold cpatternsOf
    rw [hs]
    simp
  · show (statusRecOf env).1 = _
    unfold statusRecOf
    rw [hs]
    simp
  · show (statusRecOf env).2 = _
    unfold statusRecOf
    rw [hs]
    simp

/-- A run whose syntax check failed (unbalanced parenthesis in the one
modified file); the `testsRes`/`patternsRes` the tools would have produced
are present in the environment but must not be consulted. -/
def envSyntaxFail : ToolEnv :=
  { syntaxRes := .ok { name := "syntax", passed := false, details := "bad.py: unexpected EOF", duration_ms := 11 }
    typesRes := .ok { name := "types", passed := true, details := "No type errors", duration_ms := 4 }
    lintRes := .ok { name := "lint", passed := true, details := "No lint issues", duration_ms := 2 }
    securityRes := .ok { name := "security", passed := true, details := "No security issues", duration_ms := 6 }
    testsRes := { name := "tests", passed := true, details := "1 passed", duration_ms := 900 }
    patternsRes := { name := "patterns", passed := true, details := "Pattern check complete", duration_ms := 2 } }

/-- The task fed to the gate in the syntax-failure run. -/
def taskSyntaxFail : TaskResult :=
  { task_id := "t-bad", files_modified := ["bad.py"], success := true }

/-- C5 witness: the skip behaviour evaluated on the syntax-failure run. -/
theorem C5_witness :
    (execute taskSyntaxFail envSyntaxFail).testsInvoked = false ∧
    (execute taskSyntaxFail envSyntaxFail).patternsInvoked = false ∧
    checkOf (execute taskSyntaxFail envSyntaxFail).result "tests" =
      { name := "tests", passed := false, details := "Skipped due to syntax errors",
        duration_ms := 0 } ∧
    checkOf (execute taskSyntaxFail envSyntaxFail).result "patterns" =
      { name := "patterns", passed := false, details := "Skipped due to syntax errors",
        duration_ms := 0 } ∧
    (execute taskSyntaxFail envSyntaxFail).result.status = VerificationStatus.FAIL ∧
    (execute taskSyntaxFail envSyntaxFail).result.recommendation =
      VerificationRecommendation.RETRY := by
  exact C5_skip_on_syntax_failure taskSyntaxFail envSyntaxFail rfl

/-- C6: for types, lint, security and tests, a tool-not-found error from the
invocation yields a passing outcome with an explanatory "skipped" note and
zero duration; any exception from the pattern-review service call yields a
passing patterns outcome noting the review was skipped. -/
theorem C6_tool_absent (files : List String) (existsF : String → Bool)
    (readF : String → Option String) (msg : String) (elapsed : Nat)
    (h : ((files.filter (fun f => strEndsWith f ".py")).filter existsF).isEmpty = false) :
    typesCheck files existsF ProcOutcome.fileNotFoundError elapsed =
      { name := "types", passed := true, details := "mypy not installed (skipped)",
        duration_ms := 0 } ∧
    lintCheck files existsF ProcOutcome.fileNotFoundError elapsed =
      { name := "lint", passed := true, details := "ruff not installed (skipped)",
        duration_ms := 0 } ∧
    securityCheck files existsF ProcOutcome.fileNotFoundError elapsed =
      { name := "security", passed := true, details := "bandit not installed (skipped)",
        duration_ms := 0 } ∧
    ((discoverTests files existsF).isEmpty = false →
      testsRun files existsF ProcOutcome.fileNotFoundError elapsed =
        { name := "tests", passed := true, details := "pytest not installed (skipped)",
          duration_ms := 0 }) ∧
    ((∃ f ∈ (files.filter (fun f => strEndsWith f ".py")).take 3, (readF f).isSome) →
      patternsCheck files readF (LLMOutcome.exn msg) elapsed =
        { name := "patterns", passed := true,
          details := "LLM review skipped: " ++ msg.take 100, duration_ms := elapsed }) := by
  have hpy : (files.filter (fun f => strEndsWith f ".py")).isEmpty = false := by
    cases h' : files.filter (fun f => strEndsWith f ".py") with
    | nil =>
        rw [h'] at h
        simp at h
    | cons a l => rfl
  refine ⟨?_, ?_, ?_, ?_, ?_⟩
  · simp only [typesCheck]
    rw [hpy, h]
    simp
  · simp only [lintCheck]
    rw [hpy, h]
    simp
  · simp only [securityCheck]
    rw [hpy, h]
    simp
  · intro ht
    simp only [testsRun]
    rw [ht]
    simp
  · rintro ⟨f, hf, hsome⟩
    have hpy3 : (files.filter (fun f => strEndsWith f ".py")).isEmpty = false := hpy
    have hcs : (((files.filter (fun f => strEndsWith f ".py")).take 3).filterMap
        (fun f => (readF f).map
          (fun content =>
            "# File: " ++ f ++ "\n" ++
              String.intercalate "\n" ((strSplitOn content "\n").take 300)))).isEmpty
        = false := by
      cases hcs' : (((files.filter (fun f => strEndsWith f ".py")).take 3).filterMap
          (fun f => (readF f).map
            (fun content =>
              "# File: " ++ f ++ "\n" ++
                String.intercalate "\n" ((strSplitOn content "\n").take 300)))).isEmpty with
      | false => rfl
      | true =>
          exfalso
          have hnil := List.isEmpty_iff.mp hcs'
          have hnone := List.filterMap_eq_nil_iff.mp hnil f hf
          cases hr : readF f with
          | none =>
              rw [hr] at hsome
              simp at hsome
          | some c =>
              rw [hr] at hnone
              simp at hnone
    simp only [patternsCheck]
    rw [hpy3, hcs]
    simp

/-- C6 witness: tool absence and a reviewer crash evaluated on a concrete
one-file task. -/
theorem C6_witness :
    typesCheck ["a.py"] (fun _ => true) ProcOutcome.fileNotFoundError 7 =
      { name := "types", passed := true, details := "mypy not installed (skipped)",
        duration_ms := 0 } ∧
    lintCheck ["a.py"] (fun _ => true) ProcOutcome.fileNotFoundError 7 =
      { name := "lint", passed := true, details := "ruff not installed (skipped)",
        duration_ms := 0 } ∧
    securityCheck ["a.py"] (fun _ => true) ProcOutcome.fileNotFoundError 7 =
      { name := "security", passed := true, details := "bandit not installed (skipped)",
        duration_ms := 0 } ∧
    testsRun ["a.py"] (fun _ => true) ProcOutcome.fileNotFoundError 7 =
      { name := "tests", passed := true, details := "pytest not installed (skipped)",
        duration_ms := 0 } ∧
    patternsCheck ["a.py"] (fun _ => some "x = 1") (LLMOutcome.exn "boom") 7 =
      { name := "patterns", passed := true,
        details := "LLM review skipped: " ++ "boom".take 100, duration_ms := 7 } := by
  have h := C6_tool_absent ["a.py"] (fun _ => true) (fun _ => some "x = 1") "boom" 7 (by decide)
  exact ⟨h.1, h.2.1, h.2.2.1, h.2.2.2.1 (by decide), h.2.2.2.2 ⟨"a.py", by decide, rfl⟩⟩

/-- C7: when the security scanner exits nonzero with well-formed JSON, the
outcome passes iff there are zero HIGH-severity findings; with zero HIGH
findings but a nonempty findings list the counts (0 high, n medium) are
noted in the details; malformed JSON is a failing outcome with details
"Failed to parse bandit output". -/
theorem C7_security_findings (files : List String) (existsF : String → Bool)
    (elapsed : Nat) (rc : Int) (issues : List BanditIssue)
    (h : ((files.filter (fun f => strEndsWith f ".py")).filter existsF).isEmpty = false)
    (hrc : ¬(rc = 0)) :
    ((securityCheck files existsF (ProcOutcome.completed rc (BanditOut.report issues))
        elapsed).passed = true ↔
      ∀ i ∈ issues, ¬(i.issue_severity = some "HIGH")) ∧
    (¬(issues = []) → (∀ i ∈ issues, ¬(i.issue_severity = some "HIGH")) →
      (securityCheck files existsF (ProcOutcome.completed rc (BanditOut.report issues))
          elapsed).details =
        toString issues.length ++ " security issues (" ++ toString 0 ++ " high, " ++
          toString (issues.filter (fun i => i.issue_severity == some "MEDIUM")).length ++
          " medium)") ∧
    securityCheck files existsF (ProcOutcome.completed rc BanditOut.malformed) elapsed =
      { name := "security", passed := false, details := "Failed to parse bandit output",
        duration_ms := elapsed } := by
  have hpy : (files.filter (fun f => strEndsWith f ".py")).isEmpty = false := by
    cases h' : files.filter (fun f => strEndsWith f ".py") with
    | nil =>
        rw [h'] at h
        simp at h
    | cons a l => rfl
  refine ⟨?_, ?_, ?_⟩
  · simp only [securityCheck]
    rw [hpy, h]
    simp only [Bool.false_eq_true, if_false]
    rw [if_neg hrc]
    cases hiss : issues.isEmpty with
    | true =>
        have : issues = [] := List.isEmpty_iff.mp hiss
        subst this
        simp
    | false =>
        simp only [hiss, Bool.false_eq_true, if_false]
        constructor
        · intro hp i hi hsev
          have hfil : issues.filter (fun i => i.issue_severity == some "HIGH") = [] :=
            List.isEmpty_iff.mp hp
          have : i ∈ issues.filter (fun i => i.issue_severity == some "HIGH") := by
            rw [List.mem_filter]
            exact ⟨hi, by simp [hsev]⟩
          rw [hfil] at this
          simp at this
        · intro hall
          have hfil : issues.filter (fun i => i.issue_severity == some "HIGH") = [] := by
            rw [List.filter_eq_nil_iff]
            intro i hi
            simp [hall i hi]
          rw [hfil]
          rfl
  · intro hne hall
    have hfil : issues.filter (fun i => i.issue_severity == some "HIGH") = [] := by
      rw [List.filter_eq_nil_iff]
      intro i hi
      simp [hall i hi]
    have hiss : issues.isEmpty = false := by
      cases h' : issues with
      | nil => exact absurd h' hne
      | cons a l => rfl
    simp only [securityCheck]
    rw [hpy, h]
    simp only [Bool.false_eq_true, if_false]
    rw [if_neg hrc]
    simp only [hiss, Bool.false_eq_true, if_false, hfil]
    simp
  · simp only [securityCheck]
    rw [hpy, h]
    simp only [Bool.false_eq_true, if_false]
    rw [if_neg hrc]

/-- C7 witness: a nonzero bandit exit with one MEDIUM finding passes and is
noted; malformed output fails with the parse-failure detail. -/
theorem C7_witness :
    (securityCheck ["a.py"] (fun _ => true)
      (ProcOutcome.completed 1
        (BanditOut.report [{ issue_severity := some "MEDIUM", issue_text := some "pw" }]))
      3).passed = true ∧
    (securityCheck ["a.py"] (fun _ => true)
      (ProcOutcome.completed 1
        (BanditOut.report [{ issue_severity := some "MEDIUM", issue_text := some "pw" }]))
      3).details =
      toString (1 : Nat) ++ " security issues (" ++ toString 0 ++ " high, " ++
        toString (1 : Nat) ++ " medium)" ∧
    securityCheck ["a.py"] (fun _ => true) (ProcOutcome.completed 1 BanditOut.malformed) 3 =
      { name := "security", passed := false, details := "Failed to parse bandit output",
        duration_ms := 3 } := by
  have h := C7_security_findings ["a.py"] (fun _ => true) 3 1
    [{ issue_severity := some "MEDIUM", issue_text := some "pw" }] (by decide) (by decide)
  refine ⟨h.1.mpr (by decide), ?_, h.2.2⟩
  have hd := h.2.1 (by decide) (by decide)
  simpa using hd

theorem isEmpty_false_of_mem {α : Type} {a : α} {l : List α} (h : a ∈ l) :
    l.isEmpty = false := by
  cases l with
  | nil => cases h
  | cons x t => rfl

/-- C8 counterexample: a syntax-check run in which both files' `py_compile`
invocations time out (so the measured elapsed time is 60000 ms — each
per-file invocation held the process for its full 30 s ceiling) records the
elapsed 60000 ms as the duration, not the claimed 30000 ms per-file
ceiling. -/
theorem C8_counterexample :
    (syntaxCheck ["a.py", "b.py"] (fun _ => true) (fun _ => ProcOutcome.timeoutExpired)
      60000).passed = false ∧
    (syntaxCheck ["a.py", "b.py"] (fun _ => true) (fun _ => ProcOutcome.timeoutExpired)
      60000).details = "a.py: Syntax check timeout; b.py: Syntax check timeout" ∧
    (syntaxCheck ["a.py", "b.py"] (fun _ => true) (fun _ => ProcOutcome.timeoutExpired)
      60000).duration_ms = 60000 ∧
    ¬((syntaxCheck ["a.py", "b.py"] (fun _ => true) (fun _ => ProcOutcome.timeoutExpired)
      60000).duration_ms = 30000) := by
  exact ⟨rfl, rfl, rfl, by decide⟩

/-- C8 (amended): for the batched checks a timeout yields a failing outcome
whose details name the timeout and whose duration equals the configured
ceiling (types 120000 ms, lint 60000 ms, security 60000 ms, tests
180000 ms); for the per-file syntax check a timed-out file contributes the
failing entry "<file>: Syntax check timeout" and the whole check fails, but
its recorded duration is the measured elapsed time, not a fixed ceiling. -/
theorem C8_amended_timeouts (files : List String) (existsF : String → Bool)
    (procF : String → ProcOutcome String) (elapsed : Nat) (f : String)
    (h : ((files.filter (fun g => strEndsWith g ".py")).filter existsF).isEmpty = false)
    (hmem : f ∈ files) (hpyf : strEndsWith f ".py" = true) (hex : existsF f = true)
    (hto : procF f = ProcOutcome.timeoutExpired) :
    typesCheck files existsF ProcOutcome.timeoutExpired elapsed =
      { name := "types", passed := false, details := "Type check timeout (>120s)",
        duration_ms := 120000 } ∧
    lintCheck files existsF ProcOutcome.timeoutExpired elapsed =
      { name := "lint", passed := false, details := "Lint check timeout",
        duration_ms := 60000 } ∧
    securityCheck files existsF ProcOutcome.timeoutExpired elapsed =
      { name := "security", passed := false, details := "Security check timeout",
        duration_ms := 60000 } ∧
    ((discoverTests files existsF).isEmpty = false →
      testsRun files existsF ProcOutcome.timeoutExpired elapsed =
        { name := "tests", passed := false, details := "Test timeout (>180s)",
          duration_ms := 180000 }) ∧
    syntaxFileError f (procF f) = some (f ++ ": Syntax check timeout") ∧
    (syntaxCheck files existsF procF elapsed).passed = false ∧
    (syntaxCheck files existsF procF elapsed).duration_ms = elapsed := by
  have hpy : (files.filter (fun g => strEndsWith g ".py")).isEmpty = false := by
    cases h' : files.filter (fun g => strEndsWith g ".py") with
    | nil =>
        rw [h'] at h
        simp at h
    | cons a l => rfl
  have hfe : f ∈ (files.filter (fun g => strEndsWith g ".py")).filter existsF :=
    List.mem_filter.mpr ⟨List.mem_filter.mpr ⟨hmem, hpyf⟩, hex⟩
  have hmemErr : (f ++ ": Syntax check timeout") ∈
      ((files.filter (fun g => strEndsWith g ".py")).filter existsF).filterMap
        (fun g => syntaxFileError g (procF g)) :=
    List.mem_filterMap.mpr ⟨f, hfe, by rw [hto]; rfl⟩
  have hErrNe := isEmpty_false_of_mem hmemErr
  refine ⟨?_, ?_, ?_, ?_, ?_, ?_, ?_⟩
  · simp only [typesCheck]
    rw [hpy, h]
    simp
  · simp only [lintCheck]
    rw [hpy, h]
    simp
  · simp only [securityCheck]
    rw [hpy, h]
    simp
  · intro ht
    simp only [testsRun]
    rw [ht]
    simp
  · rw [hto]
    rfl
  · simp only [syntaxCheck]
    rw [hpy]
    simpa using hErrNe
  · simp only [syntaxCheck]
    rw [hpy]
    simp

/-- C8 amended-claim witness: the timeout outcomes evaluated on a concrete
one-file task whose syntax invocation times out after 31500 ms of measured
elapsed time. -/
theorem C8_amended_witness :
    typesCheck ["a.py"] (fun _ => true) ProcOutcome.timeoutExpired 31500 =
      { name := "types", passed := false, details := "Type check timeout (>120s)",
        duration_ms := 120000 } ∧
    lintCheck ["a.py"] (fun _ => true) ProcOutcome.timeoutExpired 31500 =
      { name := "lint", passed := false, details := "Lint check timeout",
        duration_ms := 60000 } ∧
    securityCheck ["a.py"] (fun _ => true) ProcOutcome.timeoutExpired 31500 =
      { name := "security", passed := false, details := "Security check timeout",
        duration_ms := 60000 } ∧
    testsRun ["a.py"] (fun _ => true) ProcOutcome.timeoutExpired 31500 =
      { name := "tests", passed := false, details := "Test timeout (>180s)",
        duration_ms := 180000 } ∧
    (syntaxCheck ["a.py"] (fun _ => true) (fun _ => ProcOutcome.timeoutExpired)
      31500).passed = false ∧
    (syntaxCheck ["a.py"] (fun _ => true) (fun _ => ProcOutcome.timeoutExpired)
      31500).duration_ms = 31500 := by
  have h := C8_amended_timeouts ["a.py"] (fun _ => true) (fun _ => ProcOutcome.timeoutExpired)
    31500 "a.py" (by decide) (by decide) (by decide) rfl rfl
  exact ⟨h.1, h.2.1, h.2.2.1, h.2.2.2.1 (by decide), h.2.2.2.2.2.1, h.2.2.2.2.2.2⟩

theorem intercalate_nil (s : String) : String.intercalate s [] = "" := rfl

theorem intercalate_single (s x : String) : String.intercalate s [x] = x := rfl

theorem intercalate_pair (s x y : String) : String.intercalate s [x, y] = x ++ s ++ y := rfl

theorem mid_append_ne_empty (a b d : String) (hb : ¬(b.data = [])) :
    ¬(a ++ b ++ d = "") := by
  intro he
  have hd : (a ++ b ++ d).data = [] := by rw [he]
  rw [String.data_append, String.data_append] at hd
  rcases List.append_eq_nil.mp hd with ⟨h1, _⟩
  rcases List.append_eq_nil.mp h1 with ⟨_, h3⟩
  exact hb h3

theorem entry_eq_empty_false (a d : String) : (a ++ ": " ++ d = "") = False := by
  simp only [eq_iff_iff, iff_false]
  exact mid_append_ne_empty a ": " d (by decide)

theorem joined_eq_empty_false (a d : String) : (a ++ "; " ++ d = "") = False := by
  simp only [eq_iff_iff, iff_false]
  exact mid_append_ne_empty a "; " d (by decide)

/-- C9: the quick entry point gathers only the syntax and lint checks (never
types, security, tests or patterns); its outcome passes iff both passed, its
duration is the sum of the two durations, and its details are the
"name: details" entries of the failing checks joined with "; " (or the
all-passed message when none failed). -/
theorem C9_verify_quick (syntaxR lintR : CheckResult) :
    (verify_quick syntaxR lintR).invoked = ["syntax", "lint"] ∧
    ¬("types" ∈ (verify_quick syntaxR lintR).invoked) ∧
    ¬("security" ∈ (verify_quick syntaxR lintR).invoked) ∧
    ¬("tests" ∈ (verify_quick syntaxR lintR).invoked) ∧
    ¬("patterns" ∈ (verify_quick syntaxR lintR).invoked) ∧
    (verify_quick syntaxR lintR).result.passed = (syntaxR.passed && lintR.passed) ∧
    (verify_quick syntaxR lintR).result.duration_ms =
      syntaxR.duration_ms + lintR.duration_ms ∧
    (syntaxR.passed = true → lintR.passed = true →
      (verify_quick syntaxR lintR).result.details = "All quick checks passed") ∧
    (syntaxR.passed = false → lintR.passed = true →
      (verify_quick syntaxR lintR).result.details =
        syntaxR.name ++ ": " ++ syntaxR.details) ∧
    (syntaxR.passed = true → lintR.passed = false →
      (verify_quick syntaxR lintR).result.details =
        lintR.name ++ ": " ++ lintR.details) ∧
    (syntaxR.passed = false → lintR.passed = false →
      (verify_quick syntaxR lintR).result.details =
        (syntaxR.name ++ ": " ++ syntaxR.details) ++ "; " ++
          (lintR.name ++ ": " ++ lintR.details)) := by
  cases hs : syntaxR.passed <;> cases hl : lintR.passed <;>
    refine ⟨rfl, by simp [verify_quick], by simp [verify_quick], by simp [verify_quick],
      by simp [verify_quick], ?_, ?_, ?_, ?_, ?_, ?_⟩ <;>
    simp [verify_quick, hs, hl, intercalate_nil, intercalate_single, intercalate_pair,
      entry_eq_empty_false, joined_eq_empty_false]

/-- C9 witness: the quick mode evaluated with a failing lint outcome. -/
theorem C9_witness :
    (verify_quick
        { name := "syntax", passed := true, details := "All 1 files valid", duration_ms := 10 }
        { name := "lint", passed := false, details := "2 issues (0 errors, 0 warnings)",
          duration_ms := 30 }).result.details =
      ("lint" : String) ++ ": " ++ "2 issues (0 errors, 0 warnings)" ∧
    (verify_quick
        { name := "syntax", passed := true, details := "All 1 files valid", duration_ms := 10 }
        { name := "lint", passed := false, details := "2 issues (0 errors, 0 warnings)",
          duration_ms := 30 }).result.duration_ms = 40 := by
  have h := C9_verify_quick
    { name := "syntax", passed := true, details := "All 1 files valid", duration_ms := 10 }
    { name := "lint", passed := false, details := "2 issues (0 errors, 0 warnings)",
      duration_ms := 30 }
  exact ⟨h.2.2.2.2.2.2.2.2.2.1 rfl rfl, h.2.2.2.2.2.2.1⟩

/-- C10: `errors` holds exactly the "name: details" entries of the failed
critical checks (syntax, types) and `warnings` exactly those of the failed
checks among lint, security, tests, patterns; hence when FAIL is caused
solely by the security check, `errors` is empty and the security detail
appears only in `warnings`. -/
theorem C10_errors_warnings (input : TaskResult) (env : ToolEnv) :
    (execute input env).result.errors =
      ((if (checkOf (execute input env).result "syntax").passed then []
        else ["syntax: " ++ (checkOf (execute input env).result "syntax").details]) ++
       (if (checkOf (execute input env).result "types").passed then []
        else ["types: " ++ (checkOf (execute input env).result "types").details])) ∧
    (execute input env).result.warnings =
      ((if (checkOf (execute input env).result "lint").passed then []
        else ["lint: " ++ (checkOf (execute input env).result "lint").details]) ++
       (if (checkOf (execute input env).result "security").passed then []
        else ["security: " ++ (checkOf (execute input env).result "security").details]) ++
       (if (checkOf (execute input env).result "tests").passed then []
        else ["tests: " ++ (checkOf (execute input env).result "tests").details]) ++
       (if (checkOf (execute input env).result "patterns").passed then []
        else ["patterns: " ++ (checkOf (execute input env).result "patterns").details])) ∧
    ((checkOf (execute input env).result "syntax").passed = true →
     (checkOf (execute input env).result "types").passed = true →
     (checkOf (execute input env).result "security").passed = false →
      (execute input env).result.errors = [] ∧
      ("security: " ++ (checkOf (execute input env).result "security").details) ∈
        (execute input env).result.warnings) := by
  refine ⟨?_, ?_, ?_⟩
  · show errorsOf env = _
    cases hsy : (csyntaxOf env).passed <;> cases hty : (ctypesOf env).passed <;>
      simp [errorsOf, checkOf_execute_syntax, checkOf_execute_types, hsy, hty]
  · show warningsOf env = _
    cases hl : (clintOf env).passed <;> cases hsec : (csecurityOf env).passed <;>
      cases ht : (ctestsOf env).passed <;> cases hp : (cpatternsOf env).passed <;>
      simp [warningsOf, checkOf_execute_lint, checkOf_execute_security,
        checkOf_execute_tests, checkOf_execute_patterns, hl, hsec, ht, hp]
  · intro h1 h2 h3
    have hsy : (csyntaxOf env).passed = true := h1
    have hty : (ctypesOf env).passed = true := h2
    have hsec : (csecurityOf env).passed = false := h3
    constructor
    · show errorsOf env = _
      simp [errorsOf, hsy, hty]
    · show _ ∈ warningsOf env
      simp only [warningsOf, hsec, Bool.not_false, if_true]
      simp [List.mem_append]
      exact Or.inr (Or.inl rfl)

/-- C10 witness: on the security-timeout run the errors list is empty and
the security detail sits in the warnings. -/
theorem C10_witness :
    (execute taskSecTimeout envSecTimeout).result.errors = [] ∧
    ("security: " ++ (checkOf (execute taskSecTimeout envSecTimeout).result "security").details)
      ∈ (execute taskSecTimeout envSecTimeout).result.warnings := by
  exact (C10_errors_warnings taskSecTimeout envSecTimeout).2.2 rfl rfl rfl
